import Mathlib

/-!
Verification of the VRC-Template motion-control core.

This file gives a shallow embedding, over an arbitrary linear ordered field
`K` (instantiated at `ℚ` for executable checks and at `ℝ` where trigonometry
is involved), of the drivetrain control code in `BetterDrivetrain/__init__.py`
and the helper classes in `HelperFunctions/__init__.py`:

* `pymod` models Python's float modulo `x % m` (result has the divisor's sign).
* `cubic_normalize`, `SlewLimit`, `CustomPID` model the input-shaping and
  velocity-regulation helpers.
* `turn_to_heading`, `move_towards_heading`, `move_to_position`, `set_heading`
  model the `Drivetrain` methods.  Sensor reads (inertial heading, wheel
  encoder positions) are supplied as oracle streams `ℕ → _`, one entry per
  read performed by the Python code; motor commands are collected in a trace;
  `raise` is modelled by an `error` result carrying the machine state at the
  moment of the raise; the unbounded `while` loops take a fuel parameter and
  report `timeout` when it runs out.
-/

namespace VRC

/-- Python's float modulo `x % m`: `x - m * ⌊x / m⌋`.  For `m > 0` the result
lies in `[0, m)` whatever the sign of `x`. -/
def pymod {K : Type*} [LinearOrderedField K] [FloorRing K] (x m : K) : K :=
  x - m * ⌊x / m⌋

/-- The clamp function used by the specification's speed-profile formula:
`clamp x lo hi = max (min x hi) lo`. -/
def clamp {K : Type*} [LinearOrderedField K] (x lo hi : K) : K :=
  max (min x hi) lo

variable {K : Type*} [LinearOrderedField K]

theorem pymod_eq_fract [FloorRing K] (x m : K) (hm : m ≠ 0) :
    pymod x m = m * Int.fract (x / m) := by
  rw [pymod, Int.fract, mul_sub, mul_div_cancel₀ _ hm]

theorem pymod_nonneg [FloorRing K] (x m : K) (hm : 0 < m) : 0 ≤ pymod x m := by
  rw [pymod_eq_fract x m hm.ne']
  exact mul_nonneg hm.le (Int.fract_nonneg _)

theorem pymod_lt [FloorRing K] (x m : K) (hm : 0 < m) : pymod x m < m := by
  rw [pymod_eq_fract x m hm.ne']
  calc m * Int.fract (x / m) < m * 1 :=
        (mul_lt_mul_left hm).2 (Int.fract_lt_one _)
    _ = m := mul_one m

theorem pymod_eq_self [FloorRing K] (x m : K) (hm : 0 < m) (h0 : 0 ≤ x)
    (hx : x < m) : pymod x m = x := by
  have : ⌊x / m⌋ = 0 := by
    rw [Int.floor_eq_zero_iff]
    constructor
    · exact div_nonneg h0 hm.le
    · rw [div_lt_one hm]; exact hx
  simp [pymod, this]

theorem pymod_eq_add_self [FloorRing K] (x m : K) (hm : 0 < m) (hneg : x < 0)
    (hx : -m ≤ x) : pymod x m = x + m := by
  have hfloor : ⌊x / m⌋ = -1 := by
    rw [Int.floor_eq_iff]
    push_cast
    constructor
    · have hxm : -x ≤ m := by linarith
      rw [neg_le, ← neg_div]
      exact (div_le_one hm).2 hxm
    · have := div_neg_of_neg_of_pos hneg hm
      linarith
  rw [pymod, hfloor]
  push_cast
  ring

/-! ### Input Shaper: `cubic_normalize` (HelperFunctions lines 55-65) -/

/-- `cubic_normalize(value, linearity)` from `HelperFunctions/__init__.py`:
`value ** 3 + linearity * value / (1 + linearity)` with Python's operator
precedence (only the product `linearity * value` is divided). -/
def cubic_normalize (value linearity : K) : K :=
  value ^ 3 + linearity * value / (1 + linearity)

/-- The normalized cubic curve the specification's endpoint identity
`cubic_response(1, linearity) = 1` describes: the whole sum divided by
`1 + linearity`.  Stated from the spec's words, for comparison with the
source's `cubic_normalize`. -/
def cubic_response_normalized (value linearity : K) : K :=
  (value ^ 3 + linearity * value) / (1 + linearity)

/-! ### Input Shaper: `SlewLimit` (HelperFunctions lines 28-52) -/

/-- The state of `SlewLimit`: the configured maximum rate plus the two
attributes written in `__init__` / `update`. -/
structure SlewLimit (K : Type*) where
  max_slew_rate : K
  previous_value : K
  delta_value : K
deriving DecidableEq

/-- `SlewLimit.__init__(max_slew_rate)`: `previous_value` and `delta_value`
start at `0`. -/
def SlewLimit.init (max_slew_rate : K) : SlewLimit K :=
  ⟨max_slew_rate, 0, 0⟩

/-- `SlewLimit.update(new_value)` (HelperFunctions lines 43-52), returning the
state after the call and the returned value.  The method writes
`self.delta_value` but never writes `self.previous_value` back; the returned
value is `previous_value + max_slew_rate * sign(delta)` when the delta is
nonzero and exceeds the rate in magnitude, else `previous_value + delta`. -/
def SlewLimit.update (s : SlewLimit K) (new_value : K) : SlewLimit K × K :=
  let d := new_value - s.previous_value
  let s' : SlewLimit K := { s with delta_value := d }
  if d ≠ 0 ∧ |d| > s.max_slew_rate then
    (s', s.previous_value + s.max_slew_rate * (d / |d|))
  else
    (s', s.previous_value + d)

/-! ### Velocity Regulator: `CustomPID` (HelperFunctions lines 329-407) -/

/-- The `PERCENT` unit constant from `vex.py`. -/
def PERCENT : String := "PERCENT"

/-- The numeric attributes of `CustomPID` set in `__init__`
(the wrapped `motor_object` reference itself carries no numeric state we
track; its measured velocity is an input of `PID_update`). -/
structure CustomPID (K : Type*) where
  kp : K
  kd : K
  t : K
  v : K
  e : K
  d : K
  o : K
  e_pr : K
  target_v : K
deriving DecidableEq

/-- `CustomPID.__init__` with the source's default gains
`kp = 0.4`, `kd = 0.05`, `t = 0.01`. -/
def CustomPID.mkDefault : CustomPID K :=
  ⟨2 / 5, 1 / 20, 1 / 100, 0, 0, 0, 0, 0, 0⟩

/-- `CustomPID.PID_update` (HelperFunctions lines 351-360).  `measured` is the
value returned by `self.velocity(PERCENT)` (the passthrough read of the
underlying motor's velocity).  Returns the updated state together with the
velocity command the method sends to `motor_object.set_velocity(_, PERCENT)`:
`self.v + self.o` where `self.v = abs(measured)`. -/
def CustomPID.PID_update (s : CustomPID K) (measured : K) : CustomPID K × K :=
  let v := |measured|
  let e := s.target_v - v
  let d := (e - s.e_pr) / s.t
  let o := s.kp * e + s.kd * d
  ({ s with v := v, e := e, d := d, o := o, e_pr := e }, v + o)

/-- `CustomPID.set_velocity(velocity, unit)` (HelperFunctions lines 371-383):
for `unit == PERCENT` it only stores the new target velocity — no command is
issued to the underlying motor (hence no command appears in the result) —
otherwise it raises `NotImplementedError`. -/
def CustomPID.set_velocity (s : CustomPID K) (velocity : K) (unit : String) :
    Except String (CustomPID K) :=
  if unit = PERCENT then
    .ok { s with target_v := velocity }
  else
    .error ("Unit not implemented: \"" ++ unit ++ "\", please use \"PERCENT\"")

/-! ### Drivetrain data model (`BetterDrivetrain/__init__.py`) -/

/-! The constants of `Constants.DrivetrainType`. -/

namespace DrivetrainType

def TANK : ℤ := 0

def X_DRIVE : ℤ := 1

end DrivetrainType

/-- Which motor group a command is addressed to: `left_side`, `right_side`,
or the combined `all_wheels` group. -/
inductive Side : Type
  | left : Side
  | right : Side
  | all : Side
deriving DecidableEq

/-- A motor command issued by the drivetrain: `set_velocity(v, PERCENT)`,
`spin(FORWARD)`, or a stopping command. -/
inductive MotorCmd (K : Type*) : Type _
  | setVelocity : Side → K → MotorCmd K
  | spinForward : Side → MotorCmd K
  | stopMotors : Side → MotorCmd K
deriving DecidableEq

/-- The mutable pose of the drivetrain: `current_heading`, `current_x`,
`current_y` (all initialized to `0` in `__init__`). -/
structure Pose (K : Type*) where
  current_heading : K
  current_x : K
  current_y : K
deriving DecidableEq

/-- The configuration attributes of `Drivetrain.__init__` used by the embedded
methods (`wheel_circumference_mm` is the derived `wheel_radius_mm * math.tau`;
`motor_stall_speed` is the `motor_lowest_speed` argument). -/
structure Drivetrain (K : Type*) where
  heading_offset_tolerance : K
  turn_aggression : K
  correction_aggression : K
  motor_stall_speed : K
  wheel_circumference_mm : K
  movement_slowdown_slope : K
  drivetrain_type : ℤ
deriving DecidableEq

/-- Outcome of one of the control `while` loops: a Python `raise` with the
trace of motor commands issued so far, fuel exhaustion, or normal exit with
the final trace. -/
inductive LoopResult (K : Type*) : Type _
  | raised : String → List (MotorCmd K) → LoopResult K
  | fuelOut : LoopResult K
  | done : List (MotorCmd K) → LoopResult K
deriving DecidableEq

/-- Outcome of a whole drivetrain method call: a raised error (with the pose
and command trace at the moment of the raise), fuel exhaustion of the inner
loop, or normal return with the final pose and command trace. -/
inductive RunResult (K : Type*) : Type _
  | error : String → Pose K → List (MotorCmd K) → RunResult K
  | timeout : RunResult K
  | ok : Pose K → List (MotorCmd K) → RunResult K
deriving DecidableEq

/-- `true` iff the result is a raised error. -/
def RunResult.isError : RunResult K → Bool
  | .error _ _ _ => true
  | _ => false

/-! ### `Drivetrain.turn_to_heading` (BetterDrivetrain lines 69-134) -/

/-- The left/right turn-difference computation repeated throughout
`turn_to_heading` and `move_towards_heading` (e.g. BetterDrivetrain lines
79-84): raw differences of the two headings, each bumped by `360` once if
negative. -/
def turnDifferences (current_heading desired_heading : K) : K × K :=
  let left_turn_difference := current_heading - desired_heading
  let right_turn_difference := desired_heading - current_heading
  (if left_turn_difference < 0 then left_turn_difference + 360
   else left_turn_difference,
   if right_turn_difference < 0 then right_turn_difference + 360
   else right_turn_difference)

/-- The `while abs(delta_heading) > self.heading_offset_tolerance` loop of
`turn_to_heading` (BetterDrivetrain lines 91-119), for a heading oracle
`obs` (reading `i` models the `get_heading(DEGREES)` call of iteration `i`).
Arguments after `obs`: remaining fuel, next read index, the current
`left_turn_difference` and `right_turn_difference`, the current
`delta_heading`, and the trace of commands issued so far.  An invalid
`drivetrain_type` raises `RuntimeError` before that iteration's
`set_velocity` calls. -/
def turnLoop [FloorRing K] (cfg : Drivetrain K) (desired_heading : K)
    (obs : ℕ → K) :
    ℕ → ℕ → K → K → K → List (MotorCmd K) → LoopResult K
  | 0, _, _, _, delta_heading, trace =>
    if |delta_heading| > cfg.heading_offset_tolerance then .fuelOut
    else .done trace
  | fuel + 1, i, left_turn_difference, right_turn_difference, delta_heading,
      trace =>
    if |delta_heading| > cfg.heading_offset_tolerance then
      (if left_turn_difference < right_turn_difference then
          let delta_heading := left_turn_difference
          if cfg.drivetrain_type = DrivetrainType.TANK then
            let trace := trace ++
              [.setVelocity .left
                  (delta_heading * cfg.turn_aggression + cfg.motor_stall_speed),
               .setVelocity .right
                  ((delta_heading * cfg.turn_aggression + cfg.motor_stall_speed)
                    * (-1))]
            let current_heading := pymod (obs i) 360
            let d := turnDifferences current_heading desired_heading
            turnLoop cfg desired_heading obs fuel (i + 1) d.1 d.2
              delta_heading trace
          else if cfg.drivetrain_type = DrivetrainType.X_DRIVE then
            let trace := trace ++
              [.setVelocity .left
                  (delta_heading * cfg.turn_aggression + cfg.motor_stall_speed),
               .setVelocity .right
                  (delta_heading * cfg.turn_aggression + cfg.motor_stall_speed)]
            let current_heading := pymod (obs i) 360
            let d := turnDifferences current_heading desired_heading
            turnLoop cfg desired_heading obs fuel (i + 1) d.1 d.2
              delta_heading trace
          else
            .raised
              "Invalid drivetrain type, please use DrivetrainType.TANK or DrivetrainType.X_DRIVE"
              trace
        else
          let delta_heading := right_turn_difference
          if cfg.drivetrain_type = DrivetrainType.TANK then
            let trace := trace ++
              [.setVelocity .left
                  ((delta_heading * cfg.turn_aggression + cfg.motor_stall_speed)
                    * (-1)),
               .setVelocity .right
                  (delta_heading * cfg.turn_aggression + cfg.motor_stall_speed)]
            let current_heading := pymod (obs i) 360
            let d := turnDifferences current_heading desired_heading
            turnLoop cfg desired_heading obs fuel (i + 1) d.1 d.2
              delta_heading trace
          else if cfg.drivetrain_type = DrivetrainType.X_DRIVE then
            let trace := trace ++
              [.setVelocity .left
                  ((delta_heading * cfg.turn_aggression + cfg.motor_stall_speed)
                    * (-1)),
               .setVelocity .right
                  ((delta_heading * cfg.turn_aggression + cfg.motor_stall_speed)
                    * (-1))]
            let current_heading := pymod (obs i) 360
            let d := turnDifferences current_heading desired_heading
            turnLoop cfg desired_heading obs fuel (i + 1) d.1 d.2
              delta_heading trace
          else
            .raised
              "Invalid drivetrain type, please use DrivetrainType.TANK or DrivetrainType.X_DRIVE"
              trace)
    else .done trace

/-- The code after the turn loop (BetterDrivetrain lines 120-134): stop all
wheels and record `desired_heading` (already normalized) as the pose heading.
The `wait(500)` / final re-measure only feed the diagnostic log message and
change no state.  A raise inside the loop propagates with the pose unchanged;
fuel exhaustion is reported as `timeout`. -/
def turnFinish (p : Pose K) (desired_heading : K) :
    LoopResult K → RunResult K
  | .raised msg trace => .error msg p trace
  | .fuelOut => .timeout
  | .done trace =>
    .ok { p with current_heading := desired_heading }
      (trace ++ [.stopMotors .all])

/-- `Drivetrain.turn_to_heading(desired_heading)` (BetterDrivetrain lines
69-134).  `obs i` models the value returned by the `i`-th
`get_heading(DEGREES)` call (read `0` happens before the loop). -/
def turn_to_heading [FloorRing K] (cfg : Drivetrain K) (p : Pose K)
    (desired_heading : K) (obs : ℕ → K) (fuel : ℕ) : RunResult K :=
  let desired_heading := pymod desired_heading 360
  let current_heading := pymod (obs 0) 360
  let d := turnDifferences current_heading desired_heading
  let delta_heading := if d.1 < d.2 then d.1 else d.2
  turnFinish p desired_heading
    (turnLoop cfg desired_heading obs fuel 1 d.1 d.2 delta_heading
      [.setVelocity .all 0, .spinForward .all])

/-! ### `Drivetrain.move_towards_heading` (BetterDrivetrain lines 136-205) -/

/-- The speed computed each iteration of the movement loop (BetterDrivetrain
lines 169-170), verbatim:
`(max(min((distance_mm - distance_traveled) * slope + stall, abs(target)) + target, target) - target) * initial_speed_sign`. -/
def move_speed (cfg : Drivetrain K)
    (target_speed distance_mm distance_traveled initial_speed_sign : K) : K :=
  (max (min ((distance_mm - distance_traveled) * cfg.movement_slowdown_slope
          + cfg.motor_stall_speed) |target_speed| + target_speed)
      target_speed
    - target_speed) * initial_speed_sign

/-- One joint sensor reading during `move_towards_heading`: the two motor
`position(DEGREES)` values and the inertial heading. -/
structure MoveObs (K : Type*) where
  left_position : K
  right_position : K
  heading : K

/-- The `while distance_traveled <= distance_mm` loop of
`move_towards_heading` (BetterDrivetrain lines 162-185).  `obs i` models the
joint sensor reads of iteration `i`; remaining arguments: fuel, next read
index, the current `distance_traveled`, and the trace so far. -/
def moveLoop [FloorRing K] (cfg : Drivetrain K)
    (desired_heading target_speed distance_mm initial_wheel_degrees_rotated
      initial_speed_sign : K) (obs : ℕ → MoveObs K) :
    ℕ → ℕ → K → List (MotorCmd K) → LoopResult K
  | 0, _, distance_traveled, trace =>
    if distance_traveled ≤ distance_mm then .fuelOut
    else .done trace
  | fuel + 1, i, distance_traveled, trace =>
    if distance_traveled ≤ distance_mm then
        let wheel_degrees_rotated :=
          ((obs i).left_position + (obs i).right_position) / 2
        let current_heading := pymod (obs i).heading 360
        let distance_traveled :=
          |(wheel_degrees_rotated - initial_wheel_degrees_rotated) / 360
            * cfg.wheel_circumference_mm|
        let speed := move_speed cfg target_speed distance_mm distance_traveled
          initial_speed_sign
        let d := turnDifferences current_heading desired_heading
        let trace := trace ++
          (if |d.1| < |d.2| then
            [.setVelocity .left (d.1 * cfg.correction_aggression + speed),
             .setVelocity .right
                ((d.1 * cfg.correction_aggression - speed) * (-1))]
          else
            [.setVelocity .left
                ((d.2 * cfg.correction_aggression - speed) * (-1)),
             .setVelocity .right (d.2 * cfg.correction_aggression + speed)])
        moveLoop cfg desired_heading target_speed distance_mm
          initial_wheel_degrees_rotated initial_speed_sign obs fuel (i + 1)
          distance_traveled trace
    else .done trace

/-- The code after the movement loop (BetterDrivetrain lines 186-205): stop
all wheels, set the pose heading to the (normalized) `desired_heading`, and
apply the dead-reckoning update
`x += cos(desired_heading * pi / 180) * distance_mm`,
`y += sin(desired_heading * pi / 180) * distance_mm`.  `cosf`, `sinf`, `pi`
stand for `math.cos`, `math.sin`, `math.pi` (instantiated with `Real.cos`,
`Real.sin`, `Real.pi` for the real-valued statements).  The `wait(500)` and
final re-measure only feed the diagnostic log message. -/
def moveFinish (cosf sinf : K → K) (pi : K) (p : Pose K)
    (desired_heading distance_mm : K) : LoopResult K → RunResult K
  | .raised msg trace => .error msg p trace
  | .fuelOut => .timeout
  | .done trace =>
    .ok
      { current_heading := desired_heading,
        current_x := p.current_x
          + cosf (desired_heading * pi / 180) * distance_mm,
        current_y := p.current_y
          + sinf (desired_heading * pi / 180) * distance_mm }
      (trace ++ [.stopMotors .all])

/-- `Drivetrain.move_towards_heading(desired_heading, target_speed,
distance_mm)` (BetterDrivetrain lines 136-205).  The two `RuntimeError`
checks (`if not (target_speed and distance_mm)` — Python truthiness, i.e.
either argument equal to zero — then `if distance_mm < 0`) run before any
motor command and before any state change.  `obs 0` models the initial
position reads, `obs 1` the immediate re-read, `obs (i+2)` the reads of loop
iteration `i`. -/
def move_towards_heading [FloorRing K] (cosf sinf : K → K) (pi : K)
    (cfg : Drivetrain K) (p : Pose K)
    (desired_heading target_speed distance_mm : K) (obs : ℕ → MoveObs K)
    (fuel : ℕ) : RunResult K :=
  if target_speed = 0 ∨ distance_mm = 0 then
    .error "Both speed and distance must be nonzero" p []
  else if distance_mm < 0 then
    .error
      "Distance must be positive, to drive in reverse please set speed to a negative"
      p []
  else
    let desired_heading := pymod desired_heading 360
    let initial_speed_sign := target_speed / |target_speed|
    let initial_wheel_degrees_rotated :=
      ((obs 0).left_position + (obs 0).right_position) / 2
    let wheel_degrees_rotated :=
      ((obs 1).left_position + (obs 1).right_position) / 2
    let distance_traveled :=
      |(wheel_degrees_rotated - initial_wheel_degrees_rotated) / 360
        * cfg.wheel_circumference_mm|
    moveFinish cosf sinf pi p desired_heading distance_mm
      (moveLoop cfg desired_heading target_speed distance_mm
        initial_wheel_degrees_rotated initial_speed_sign obs fuel 2
        distance_traveled [.setVelocity .all 0, .spinForward .all])

/-! ### `Drivetrain.set_heading` and `Drivetrain.move_to_position` -/

/-- `Drivetrain.set_heading(heading)` (BetterDrivetrain lines 267-272):
stores the passed heading into the pose as-is (no normalization). -/
def set_heading (p : Pose K) (heading : K) : Pose K :=
  { p with current_heading := heading }

/-- Python's `math.atan2(y, x)`: the argument of the complex number
`x + y*i`, in `(-pi, pi]`. -/
noncomputable def atan2 (y x : ℝ) : ℝ :=
  Complex.arg ⟨x, y⟩

/-- A delegated drivetrain call, as issued by `move_to_position`. -/
inductive DriveCall (K : Type*) : Type _
  | turn : K → DriveCall K
  | move : K → K → K → DriveCall K

/-- `Drivetrain.move_to_position(x, y, target_speed)` (BetterDrivetrain lines
207-217), as the sequence of delegated calls it performs:
`angle = math.atan2(x - current_x, y - current_y) * math.pi / 180`,
`distance = sqrt((x - current_x)**2 + (y - current_y)**2)`, then
`turn_to_heading(angle)` followed by
`move_towards_heading(angle, target_speed, distance)`. -/
noncomputable def move_to_position (p : Pose ℝ) (x y target_speed : ℝ) :
    List (DriveCall ℝ) :=
  let angle := atan2 (x - p.current_x) (y - p.current_y) * Real.pi / 180
  let distance := Real.sqrt ((x - p.current_x) ^ 2 + (y - p.current_y) ^ 2)
  [.turn angle, .move angle target_speed distance]

/-! ## Claim C8: the cubic response curve -/

/-- C8, counterexample: with Python's operator precedence the source's
`cubic_normalize(1, 1) = 1 + 1/2 = 3/2`, so the claimed identity
`cubic_response(1, linearity) = 1` for every `linearity > -1` fails at
`linearity = 1`. -/
theorem C8_cubic_endpoint_counterexample :
    cubic_normalize (1 : ℚ) 1 = 3 / 2
    ∧ ¬ cubic_normalize (1 : ℚ) 1 = 1
    ∧ (-1 : ℚ) < 1 := by
  norm_num [cubic_normalize]

/-- C8, amended: `cubic_normalize` returns
`value ^ 3 + (linearity * value) / (1 + linearity)` (only the product is
divided); `cubic_normalize 0 linearity = 0` for `linearity ≠ -1`; at `1` it
returns `1 + linearity / (1 + linearity)`, which equals `1` only for
`linearity = 0`.  The spec's endpoint identity `f 1 = 1` instead holds for
the fully normalized curve `(value ^ 3 + linearity * value) / (1 + linearity)`. -/
theorem C8_cubic_endpoints (value linearity : K) (hl : linearity ≠ -1) :
    cubic_normalize value linearity
      = value ^ 3 + linearity * value / (1 + linearity)
    ∧ cubic_normalize 0 linearity = 0
    ∧ cubic_normalize 1 linearity = 1 + linearity / (1 + linearity)
    ∧ (cubic_normalize 1 linearity = 1 ↔ linearity = 0)
    ∧ cubic_response_normalized 1 linearity = 1 := by
  have h1l : (1 : K) + linearity ≠ 0 := by
    intro h
    exact hl (by linarith)
  refine ⟨rfl, by simp [cubic_normalize], by simp [cubic_normalize], ?_, ?_⟩
  · rw [cubic_normalize, one_pow, mul_one]
    constructor
    · intro h
      have hdiv : linearity / (1 + linearity) = 0 := by linarith
      rcases div_eq_zero_iff.1 hdiv with h0 | h0
      · exact h0
      · exact absurd h0 h1l
    · intro h
      subst h
      norm_num
  · rw [cubic_response_normalized, div_eq_one_iff_eq h1l]
    ring

/-- C8 witness: the amended statement evaluated at `value = 1/2`,
`linearity = 2` over `ℚ`. -/
theorem C8_cubic_endpoints_witness :
    (2 : ℚ) ≠ -1
    ∧ (cubic_normalize (1 / 2 : ℚ) 2 = (1 / 2) ^ 3 + 2 * (1 / 2) / (1 + 2)
      ∧ cubic_normalize (0 : ℚ) 2 = 0
      ∧ cubic_normalize (1 : ℚ) 2 = 1 + 2 / (1 + 2)
      ∧ (cubic_normalize (1 : ℚ) 2 = 1 ↔ (2 : ℚ) = 0)
      ∧ cubic_response_normalized (1 : ℚ) 2 = 1) :=
  ⟨by norm_num, C8_cubic_endpoints (1 / 2) 2 (by norm_num)⟩

/-! ## Claim C5: the slew limiter -/

/-- C5: `SlewLimit.update` computes the clamped step from
`self.previous_value` but never writes `previous_value` back, so with
`max_slew_rate = 1` two successive `update(10)` calls both return `1`; the
claimed recurrence (previous = value resulting from the previous update)
would return `1 + clamp(10 - 1, -1, 1) = 2` from the second call. -/
theorem C5_slew_previous_never_updated :
    (SlewLimit.update (SlewLimit.init (1 : ℚ)) 10).2 = 1
    ∧ (SlewLimit.update (SlewLimit.update (SlewLimit.init (1 : ℚ)) 10).1
        10).2 = 1
    ∧ (SlewLimit.update (SlewLimit.init (1 : ℚ)) 10).2
        + clamp (10 - (SlewLimit.update (SlewLimit.init (1 : ℚ)) 10).2) (-1) 1
        = 2
    ∧ (SlewLimit.update (SlewLimit.update (SlewLimit.init (1 : ℚ)) 10).1
        10).2
        ≠ (SlewLimit.update (SlewLimit.init (1 : ℚ)) 10).2
          + clamp (10 - (SlewLimit.update (SlewLimit.init (1 : ℚ)) 10).2)
            (-1) 1 := by
  norm_num [SlewLimit.update, SlewLimit.init, clamp]

/-! ## Claim C6: the per-motor PID tick and `set_velocity` -/

/-- C6, counterexample: with the default gains, target `0` and previous error
`0`, a measured velocity of `-50` makes `PID_update` send `50 + output =
-220`, not `measured + output = -320` as the claim's command formula states. -/
theorem C6_pid_command_counterexample :
    ((CustomPID.mkDefault : CustomPID ℚ).PID_update (-50)).2 = -220
    ∧ ((CustomPID.mkDefault : CustomPID ℚ).PID_update (-50)).1.o = -270
    ∧ ((CustomPID.mkDefault : CustomPID ℚ).PID_update (-50)).2
        ≠ -50 + ((CustomPID.mkDefault : CustomPID ℚ).PID_update (-50)).1.o := by
  norm_num [CustomPID.PID_update, CustomPID.mkDefault]

/-- C6, amended: each `PID_update` tick computes
`error = target_velocity - |measured|`,
`derivative = (error - previous_error) / t`,
`output = kp * error + kd * derivative`, leaves `target_velocity` unchanged,
and sends `|measured| + output` (not the signed `measured + output`) to the
underlying motor; `set_velocity(v, PERCENT)` only stores the new target
velocity and issues no motor command. -/
theorem C6_pid_update_formulas (s : CustomPID K) (measured velocity : K) :
    (s.PID_update measured).1.e = s.target_v - |measured|
    ∧ (s.PID_update measured).1.d
        = ((s.PID_update measured).1.e - s.e_pr) / s.t
    ∧ (s.PID_update measured).1.o
        = s.kp * (s.PID_update measured).1.e
          + s.kd * (s.PID_update measured).1.d
    ∧ (s.PID_update measured).2 = |measured| + (s.PID_update measured).1.o
    ∧ (s.PID_update measured).1.target_v = s.target_v
    ∧ s.set_velocity velocity PERCENT = .ok { s with target_v := velocity } := by
  refine ⟨rfl, rfl, rfl, rfl, rfl, ?_⟩
  rw [CustomPID.set_velocity, if_pos rfl]

/-! ## Claim C1: the movement speed profile -/

/-- C1: inside the movement loop (`move_speed`, with the code's
`initial_speed_sign = target_speed / |target_speed|`) the commanded speed
equals `clamp(stall + slope * (distance_mm - distance_traveled), 0,
|target_speed|) * sign(target_speed)`; its magnitude never exceeds
`|target_speed|`, never drops below `motor_stall_speed` while
`distance_traveled ≤ distance_mm`, and is non-increasing as the remaining
distance decreases (`d ≤ d'`). -/
theorem C1_move_speed_profile (cfg : Drivetrain K)
    (target_speed distance_mm d d' : K) (hT : target_speed ≠ 0)
    (hslope : 0 ≤ cfg.movement_slowdown_slope)
    (hstall : cfg.motor_stall_speed ≤ |target_speed|)
    (hd0 : 0 ≤ d) (hdD : d ≤ distance_mm) (hdd' : d ≤ d') :
    move_speed cfg target_speed distance_mm d (target_speed / |target_speed|)
      = clamp (cfg.motor_stall_speed
            + cfg.movement_slowdown_slope * (distance_mm - d)) 0
          |target_speed|
        * (target_speed / |target_speed|)
    ∧ |move_speed cfg target_speed distance_mm d
          (target_speed / |target_speed|)|
        ≤ |target_speed|
    ∧ cfg.motor_stall_speed
        ≤ |move_speed cfg target_speed distance_mm d
            (target_speed / |target_speed|)|
    ∧ |move_speed cfg target_speed distance_mm d'
          (target_speed / |target_speed|)|
        ≤ |move_speed cfg target_speed distance_mm d
            (target_speed / |target_speed|)| := by
  have habs : abs (target_speed / |target_speed|) = 1 := by
    rw [abs_div, abs_abs, div_self (abs_ne_zero.2 hT)]
  have key : ∀ x : K,
      move_speed cfg target_speed distance_mm x
          (target_speed / |target_speed|)
        = clamp ((distance_mm - x) * cfg.movement_slowdown_slope
              + cfg.motor_stall_speed) 0 |target_speed|
            * (target_speed / |target_speed|) := by
    intro x
    rw [move_speed, clamp]
    congr 1
    calc
      max (min ((distance_mm - x) * cfg.movement_slowdown_slope
              + cfg.motor_stall_speed) |target_speed| + target_speed)
          target_speed - target_speed
        = max (min ((distance_mm - x) * cfg.movement_slowdown_slope
              + cfg.motor_stall_speed) |target_speed| + target_speed)
            (0 + target_speed) - target_speed := by rw [zero_add]
      _ = max (min ((distance_mm - x) * cfg.movement_slowdown_slope
              + cfg.motor_stall_speed) |target_speed|) 0 + target_speed
            - target_speed := by rw [max_add_add_right]
      _ = max (min ((distance_mm - x) * cfg.movement_slowdown_slope
              + cfg.motor_stall_speed) |target_speed|) 0 := by ring
  have hclamp_nonneg : ∀ x : K, 0 ≤ clamp x 0 |target_speed| := by
    intro x
    exact le_max_right _ 0
  have habs_speed : ∀ x : K,
      |move_speed cfg target_speed distance_mm x
          (target_speed / |target_speed|)|
        = clamp ((distance_mm - x) * cfg.movement_slowdown_slope
            + cfg.motor_stall_speed) 0 |target_speed| := by
    intro x
    rw [key x, abs_mul, habs, mul_one, abs_of_nonneg (hclamp_nonneg _)]
  refine ⟨?_, ?_, ?_, ?_⟩
  · rw [key d]
    congr 2
    ring
  · rw [habs_speed d, clamp]
    exact max_le (min_le_right _ _) (abs_nonneg _)
  · rw [habs_speed d, clamp]
    refine le_trans (le_min ?_ hstall) (le_max_left _ 0)
    nlinarith [mul_nonneg (sub_nonneg.2 hdD) hslope]
  · rw [habs_speed d, habs_speed d', clamp, clamp]
    have hv : (distance_mm - d') * cfg.movement_slowdown_slope
        + cfg.motor_stall_speed
        ≤ (distance_mm - d) * cfg.movement_slowdown_slope
          + cfg.motor_stall_speed := by
      nlinarith [mul_le_mul_of_nonneg_right
        (sub_le_sub_left hdd' distance_mm) hslope]
    exact max_le_max (min_le_min (by exact hv) le_rfl) le_rfl

/-- Concrete configuration used by the executable checks: tolerance `5`,
turn aggression `1/4`, correction aggression `1/10`, stall speed `1`, wheel
circumference `360`, slowdown slope `1/5`, tank drivetrain. -/
def cfgQ : Drivetrain ℚ :=
  ⟨5, 1 / 4, 1 / 10, 1, 360, 1 / 5, DrivetrainType.TANK⟩

/-- C1 witness: the speed-profile theorem applied at the concrete
configuration `cfgQ`, `target_speed = 50`, `distance_mm = 100`, `d = 20`,
`d' = 30`. -/
theorem C1_move_speed_profile_witness :
    ((50 : ℚ) ≠ 0 ∧ 0 ≤ cfgQ.movement_slowdown_slope
      ∧ cfgQ.motor_stall_speed ≤ |(50 : ℚ)| ∧ (0 : ℚ) ≤ 20
      ∧ (20 : ℚ) ≤ 100 ∧ (20 : ℚ) ≤ 30)
    ∧ (move_speed cfgQ 50 100 20 (50 / |(50 : ℚ)|)
        = clamp (cfgQ.motor_stall_speed
              + cfgQ.movement_slowdown_slope * (100 - 20)) 0 |(50 : ℚ)|
          * (50 / |(50 : ℚ)|)
      ∧ |move_speed cfgQ 50 100 20 (50 / |(50 : ℚ)|)| ≤ |(50 : ℚ)|
      ∧ cfgQ.motor_stall_speed ≤ |move_speed cfgQ 50 100 20 (50 / |(50 : ℚ)|)|
      ∧ |move_speed cfgQ 50 100 30 (50 / |(50 : ℚ)|)|
          ≤ |move_speed cfgQ 50 100 20 (50 / |(50 : ℚ)|)|) :=
  ⟨⟨by norm_num, by norm_num [cfgQ], by norm_num [cfgQ], by norm_num,
      by norm_num, by norm_num⟩,
    C1_move_speed_profile cfgQ 50 100 20 30 (by norm_num)
      (by norm_num [cfgQ]) (by norm_num [cfgQ]) (by norm_num) (by norm_num)
      (by norm_num)⟩

/-! ## Claim C2: shortest-turn selection -/

/-- C2: for headings already normalized into `[0, 360)` (as both are at every
use in the source), the code's bump-by-360 differences equal the claimed
`(current - desired) mod 360` and `(desired - current) mod 360`, and the
selection `if left < right then left else right`, re-evaluated by `turnLoop`
from a fresh reading every iteration, picks their minimum; in particular for
current `10` and desired `350` it picks the left candidate `20` (the turn
crossing `0`), not `340`. -/
theorem C2_shortest_turn_selection [FloorRing K] (current desired : K)
    (h0c : 0 ≤ current) (hc : current < 360) (h0d : 0 ≤ desired)
    (hd : desired < 360) :
    ((turnDifferences current desired).1 = pymod (current - desired) 360
      ∧ (turnDifferences current desired).2 = pymod (desired - current) 360
      ∧ (if (turnDifferences current desired).1
            < (turnDifferences current desired).2
          then (turnDifferences current desired).1
          else (turnDifferences current desired).2)
        = min (pymod (current - desired) 360)
            (pymod (desired - current) 360))
    ∧ ((turnDifferences (10 : K) 350).1 = 20
      ∧ (turnDifferences (10 : K) 350).2 = 340
      ∧ (turnDifferences (10 : K) 350).1 < (turnDifferences (10 : K) 350).2
      ∧ (if (turnDifferences (10 : K) 350).1 < (turnDifferences (10 : K) 350).2
          then (turnDifferences (10 : K) 350).1
          else (turnDifferences (10 : K) 350).2) = 20) := by
  have hdiff : ∀ a b : K, 0 ≤ a → a < 360 → 0 ≤ b → b < 360 →
      (if a - b < 0 then a - b + 360 else a - b) = pymod (a - b) 360 := by
    intro a b h0a ha h0b hb
    rcases lt_or_le (a - b) 0 with h | h
    · rw [if_pos h, pymod_eq_add_self (a - b) 360 (by norm_num) h (by linarith)]
    · rw [if_neg (not_lt.2 h),
        pymod_eq_self (a - b) 360 (by norm_num) h (by linarith)]
  have h1 : (turnDifferences current desired).1
      = pymod (current - desired) 360 := by
    rw [turnDifferences]
    exact hdiff current desired h0c hc h0d hd
  have h2 : (turnDifferences current desired).2
      = pymod (desired - current) 360 := by
    rw [turnDifferences]
    exact hdiff desired current h0d hd h0c hc
  have hmin : ∀ x y : K, (if x < y then x else y) = min x y := by
    intro x y
    rcases lt_or_le x y with h | h
    · rw [if_pos h, min_eq_left h.le]
    · rw [if_neg (not_lt.2 h), min_eq_right h]
  have hl : (turnDifferences (10 : K) 350).1 = 20 := by
    rw [turnDifferences]
    norm_num
  have hr : (turnDifferences (10 : K) 350).2 = 340 := by
    rw [turnDifferences]
    norm_num
  refine ⟨⟨h1, h2, by rw [hmin, h1, h2]⟩, hl, hr, ?_, ?_⟩
  · rw [hl, hr]
    norm_num
  · rw [hmin, hl, hr]
    norm_num

/-- C2 witness: the selection theorem applied at current heading `10` and
desired heading `350` over `ℚ` (the spec's own concrete test case). -/
theorem C2_shortest_turn_selection_witness :
    ((0 : ℚ) ≤ 10 ∧ (10 : ℚ) < 360 ∧ (0 : ℚ) ≤ 350 ∧ (350 : ℚ) < 360)
    ∧ (((turnDifferences (10 : ℚ) 350).1 = pymod (10 - 350) 360
        ∧ (turnDifferences (10 : ℚ) 350).2 = pymod (350 - 10) 360
        ∧ (if (turnDifferences (10 : ℚ) 350).1
              < (turnDifferences (10 : ℚ) 350).2
            then (turnDifferences (10 : ℚ) 350).1
            else (turnDifferences (10 : ℚ) 350).2)
          = min (pymod ((10 : ℚ) - 350) 360) (pymod ((350 : ℚ) - 10) 360))
      ∧ ((turnDifferences (10 : ℚ) 350).1 = 20
        ∧ (turnDifferences (10 : ℚ) 350).2 = 340
        ∧ (turnDifferences (10 : ℚ) 350).1 < (turnDifferences (10 : ℚ) 350).2
        ∧ (if (turnDifferences (10 : ℚ) 350).1
              < (turnDifferences (10 : ℚ) 350).2
            then (turnDifferences (10 : ℚ) 350).1
            else (turnDifferences (10 : ℚ) 350).2) = 20)) :=
  ⟨⟨by norm_num, by norm_num, by norm_num, by norm_num⟩,
    C2_shortest_turn_selection (10 : ℚ) 350 (by norm_num) (by norm_num)
      (by norm_num) (by norm_num)⟩

/-! ## Helper lemmas about completed runs -/

theorem turnFinish_ok_eq (p : Pose K) (dh : K) (R : LoopResult K)
    (p' : Pose K) (tr : List (MotorCmd K))
    (h : turnFinish p dh R = .ok p' tr) :
    p' = { p with current_heading := dh } := by
  cases R with
  | raised msg trace => exact absurd h (by simp [turnFinish])
  | fuelOut => exact absurd h (by simp [turnFinish])
  | done trace =>
    simp only [turnFinish, RunResult.ok.injEq] at h
    exact h.1.symm

theorem turn_to_heading_ok_pose [FloorRing K] (cfg : Drivetrain K)
    (p : Pose K) (dh : K) (obs : ℕ → K) (fuel : ℕ) (p' : Pose K)
    (tr : List (MotorCmd K))
    (h : turn_to_heading cfg p dh obs fuel = .ok p' tr) :
    p' = { p with current_heading := pymod dh 360 } :=
  turnFinish_ok_eq p (pymod dh 360) _ p' tr h

theorem moveFinish_ok_eq (cosf sinf : K → K) (pi : K) (p : Pose K)
    (dh dmm : K) (R : LoopResult K) (p' : Pose K) (tr : List (MotorCmd K))
    (h : moveFinish cosf sinf pi p dh dmm R = .ok p' tr) :
    p' = ⟨dh, p.current_x + cosf (dh * pi / 180) * dmm,
          p.current_y + sinf (dh * pi / 180) * dmm⟩ := by
  cases R with
  | raised msg trace => exact absurd h (by simp [moveFinish])
  | fuelOut => exact absurd h (by simp [moveFinish])
  | done trace =>
    simp only [moveFinish, RunResult.ok.injEq] at h
    exact h.1.symm

theorem move_towards_heading_ok_pose [FloorRing K] (cosf sinf : K → K)
    (pi : K) (cfg : Drivetrain K) (p : Pose K) (dh v dmm : K)
    (obs : ℕ → MoveObs K) (fuel : ℕ) (p' : Pose K) (tr : List (MotorCmd K))
    (h : move_towards_heading cosf sinf pi cfg p dh v dmm obs fuel
      = .ok p' tr) :
    p' = ⟨pymod dh 360,
          p.current_x + cosf (pymod dh 360 * pi / 180) * dmm,
          p.current_y + sinf (pymod dh 360 * pi / 180) * dmm⟩ := by
  rw [move_towards_heading] at h
  split_ifs at h
  all_goals
    first
      | exact RunResult.noConfusion h
      | exact moveFinish_ok_eq cosf sinf pi p _ dmm _ p' tr h

theorem turnLoop_invalid [FloorRing K] (cfg : Drivetrain K) (dh : K)
    (obs : ℕ → K) (fuel i : ℕ) (l r delta : K) (trace : List (MotorCmd K))
    (htank : cfg.drivetrain_type ≠ DrivetrainType.TANK)
    (hxd : cfg.drivetrain_type ≠ DrivetrainType.X_DRIVE)
    (hdelta : |delta| > cfg.heading_offset_tolerance) :
    turnLoop cfg dh obs (fuel + 1) i l r delta trace
      = .raised
          "Invalid drivetrain type, please use DrivetrainType.TANK or DrivetrainType.X_DRIVE"
          trace := by
  rw [turnLoop, if_pos hdelta]
  split_ifs <;> simp_all

theorem turnLoop_exit [FloorRing K] (cfg : Drivetrain K) (dh : K)
    (obs : ℕ → K) (fuel i : ℕ) (l r delta : K) (trace : List (MotorCmd K))
    (hdelta : ¬ |delta| > cfg.heading_offset_tolerance) :
    turnLoop cfg dh obs fuel i l r delta trace = .done trace := by
  cases fuel <;> rw [turnLoop, if_neg hdelta]

/-! ## Claim C10: `turn_to_heading` only mutates the heading -/

/-- C10: every completed `turn_to_heading` call leaves `current_x` and
`current_y` exactly as they were. -/
theorem C10_turn_mutates_only_heading [FloorRing K] (cfg : Drivetrain K)
    (p : Pose K) (dh : K) (obs : ℕ → K) (fuel : ℕ) (p' : Pose K)
    (tr : List (MotorCmd K))
    (h : turn_to_heading cfg p dh obs fuel = .ok p' tr) :
    p'.current_x = p.current_x ∧ p'.current_y = p.current_y := by
  rw [turn_to_heading_ok_pose cfg p dh obs fuel p' tr h]
  exact ⟨rfl, rfl⟩

/-- C10 witness: a completed concrete turn (already within tolerance) from
pose `(0, 2, 3)` to heading `3` preserves `x = 2` and `y = 3`. -/
theorem C10_turn_mutates_only_heading_witness :
    turn_to_heading cfgQ ⟨0, 2, 3⟩ 3 (fun _ => 0) 0
      = RunResult.ok (⟨3, 2, 3⟩ : Pose ℚ)
          [.setVelocity .all 0, .spinForward .all, .stopMotors .all]
    ∧ ((⟨3, 2, 3⟩ : Pose ℚ).current_x = (⟨0, 2, 3⟩ : Pose ℚ).current_x
      ∧ (⟨3, 2, 3⟩ : Pose ℚ).current_y = (⟨0, 2, 3⟩ : Pose ℚ).current_y) := by
  have hrun : turn_to_heading cfgQ (⟨0, 2, 3⟩ : Pose ℚ) 3 (fun _ => 0) 0
      = RunResult.ok (⟨3, 2, 3⟩ : Pose ℚ)
          [.setVelocity .all 0, .spinForward .all, .stopMotors .all] := by
    norm_num [turn_to_heading, turnLoop, turnFinish, turnDifferences, pymod,
      cfgQ]
  exact ⟨hrun,
    C10_turn_mutates_only_heading cfgQ ⟨0, 2, 3⟩ 3 (fun _ => 0) 0 _ _ hrun⟩

/-! ## Claim C3: configuration errors before any motion -/

/-- C3, counterexample: with an invalid `drivetrain_type = 7` but an initial
heading error (`3°`) already within the tolerance (`5°`), `turn_to_heading`
raises no error at all — the while loop never runs, the type tag is never
inspected — and it still overwrites the pose heading (`0 → 3`). -/
theorem C3_invalid_type_counterexample :
    RunResult.isError
        (turn_to_heading (⟨5, 1 / 4, 1 / 10, 1, 360, 1 / 5, 7⟩ : Drivetrain ℚ)
          ⟨0, 2, 3⟩ 3 (fun _ => 0) 0) = false
    ∧ turn_to_heading (⟨5, 1 / 4, 1 / 10, 1, 360, 1 / 5, 7⟩ : Drivetrain ℚ)
        ⟨0, 2, 3⟩ 3 (fun _ => 0) 0
      = RunResult.ok (⟨3, 2, 3⟩ : Pose ℚ)
          [.setVelocity .all 0, .spinForward .all, .stopMotors .all]
    ∧ (3 : ℚ) ≠ 0 := by
  have hrun : turn_to_heading
        (⟨5, 1 / 4, 1 / 10, 1, 360, 1 / 5, 7⟩ : Drivetrain ℚ)
        (⟨0, 2, 3⟩ : Pose ℚ) 3 (fun _ => 0) 0
      = RunResult.ok (⟨3, 2, 3⟩ : Pose ℚ)
          [.setVelocity .all 0, .spinForward .all, .stopMotors .all] := by
    norm_num [turn_to_heading, turnLoop, turnFinish, turnDifferences, pymod]
  refine ⟨by rw [hrun]; rfl, hrun, by norm_num⟩

/-- C3, amended: in `move_towards_heading`, `target_speed = 0`,
`distance_mm = 0` and `distance_mm < 0` each raise before any motor command
or pose change (error result with the unchanged pose and an empty command
trace).  In `turn_to_heading` the invalid-drivetrain-type check only runs
inside the control loop: when the initially selected turn magnitude exceeds
the tolerance it raises on the first iteration, before any nonzero velocity
command (the trace holds exactly `set_velocity(0)` and `spin(FORWARD)`) and
with the pose unchanged; but when the initial error is already within
tolerance the call returns normally — no error is raised, the motors only
ever receive the zero-velocity setup commands and a stop, and the pose
heading is still overwritten with the normalized desired heading. -/
theorem C3_config_error_behavior [FloorRing K] (cosf sinf : K → K) (pi : K)
    (cfg cfgT : Drivetrain K) (p q : Pose K) (dh dh' v v' dmm dneg : K)
    (obs : ℕ → MoveObs K) (hobs hobs' : ℕ → K) (fuel fuelT fuelT' : ℕ)
    (hv' : v' ≠ 0) (hneg : dneg < 0)
    (htank : cfg.drivetrain_type ≠ DrivetrainType.TANK)
    (hxd : cfg.drivetrain_type ≠ DrivetrainType.X_DRIVE)
    (hdelta :
      |(if (turnDifferences (pymod (hobs 0) 360) (pymod dh 360)).1
            < (turnDifferences (pymod (hobs 0) 360) (pymod dh 360)).2
          then (turnDifferences (pymod (hobs 0) 360) (pymod dh 360)).1
          else (turnDifferences (pymod (hobs 0) 360) (pymod dh 360)).2)|
        > cfg.heading_offset_tolerance)
    (hdelta' :
      ¬ |(if (turnDifferences (pymod (hobs' 0) 360) (pymod dh' 360)).1
            < (turnDifferences (pymod (hobs' 0) 360) (pymod dh' 360)).2
          then (turnDifferences (pymod (hobs' 0) 360) (pymod dh' 360)).1
          else (turnDifferences (pymod (hobs' 0) 360) (pymod dh' 360)).2)|
        > cfgT.heading_offset_tolerance) :
    move_towards_heading cosf sinf pi cfg p dh 0 dmm obs fuel
        = .error "Both speed and distance must be nonzero" p []
    ∧ move_towards_heading cosf sinf pi cfg p dh v 0 obs fuel
        = .error "Both speed and distance must be nonzero" p []
    ∧ move_towards_heading cosf sinf pi cfg p dh v' dneg obs fuel
        = .error
            "Distance must be positive, to drive in reverse please set speed to a negative"
            p []
    ∧ turn_to_heading cfg p dh hobs (fuelT + 1)
        = .error
            "Invalid drivetrain type, please use DrivetrainType.TANK or DrivetrainType.X_DRIVE"
            p [.setVelocity .all 0, .spinForward .all]
    ∧ turn_to_heading cfgT q dh' hobs' fuelT'
        = .ok { q with current_heading := pymod dh' 360 }
            [.setVelocity .all 0, .spinForward .all, .stopMotors .all] := by
  refine ⟨?_, ?_, ?_, ?_, ?_⟩
  · rw [move_towards_heading, if_pos (Or.inl rfl)]
  · rw [move_towards_heading, if_pos (Or.inr rfl)]
  · rw [move_towards_heading, if_neg ?_, if_pos hneg]
    rintro (h | h)
    · exact hv' h
    · exact (ne_of_lt hneg) h
  · simp only [turn_to_heading]
    rw [turnLoop_invalid cfg (pymod dh 360) hobs fuelT 1 _ _ _ _ htank hxd
      hdelta]
    rfl
  · simp only [turn_to_heading]
    rw [turnLoop_exit cfgT (pymod dh' 360) hobs' fuelT' 1 _ _ _ _ hdelta']
    rfl

/-- C3 witness: the amended behavior at concrete inputs over `ℚ`: an invalid
type tag `7` with a `90°` initial error raises on the first iteration; the
valid tank configuration `cfgQ` already within tolerance returns normally. -/
theorem C3_config_error_behavior_witness :
    (((50 : ℚ) ≠ 0) ∧ ((-5 : ℚ) < 0)
      ∧ ((⟨5, 1 / 4, 1 / 10, 1, 360, 1 / 5, 7⟩ :
            Drivetrain ℚ).drivetrain_type ≠ DrivetrainType.TANK)
      ∧ ((⟨5, 1 / 4, 1 / 10, 1, 360, 1 / 5, 7⟩ :
            Drivetrain ℚ).drivetrain_type ≠ DrivetrainType.X_DRIVE))
    ∧ (move_towards_heading id id 0
          (⟨5, 1 / 4, 1 / 10, 1, 360, 1 / 5, 7⟩ : Drivetrain ℚ)
          ⟨0, 0, 0⟩ 90 0 1000 (fun _ => ⟨0, 0, 0⟩) 0
        = .error "Both speed and distance must be nonzero" ⟨0, 0, 0⟩ []
      ∧ move_towards_heading id id 0
          (⟨5, 1 / 4, 1 / 10, 1, 360, 1 / 5, 7⟩ : Drivetrain ℚ)
          ⟨0, 0, 0⟩ 90 50 0 (fun _ => ⟨0, 0, 0⟩) 0
        = .error "Both speed and distance must be nonzero" ⟨0, 0, 0⟩ []
      ∧ move_towards_heading id id 0
          (⟨5, 1 / 4, 1 / 10, 1, 360, 1 / 5, 7⟩ : Drivetrain ℚ)
          ⟨0, 0, 0⟩ 90 50 (-5) (fun _ => ⟨0, 0, 0⟩) 0
        = .error
            "Distance must be positive, to drive in reverse please set speed to a negative"
            ⟨0, 0, 0⟩ []
      ∧ turn_to_heading (⟨5, 1 / 4, 1 / 10, 1, 360, 1 / 5, 7⟩ : Drivetrain ℚ)
          ⟨0, 0, 0⟩ 90 (fun _ => 0) (0 + 1)
        = .error
            "Invalid drivetrain type, please use DrivetrainType.TANK or DrivetrainType.X_DRIVE"
            ⟨0, 0, 0⟩ [.setVelocity .all 0, .spinForward .all]
      ∧ turn_to_heading cfgQ ⟨0, 2, 3⟩ 3 (fun _ => 0) 0
        = .ok { (⟨0, 2, 3⟩ : Pose ℚ) with current_heading := pymod 3 360 }
            [.setVelocity .all 0, .spinForward .all, .stopMotors .all]) :=
  ⟨⟨by norm_num, by norm_num, by norm_num [DrivetrainType.TANK],
      by norm_num [DrivetrainType.X_DRIVE]⟩,
    C3_config_error_behavior id id 0
      (⟨5, 1 / 4, 1 / 10, 1, 360, 1 / 5, 7⟩ : Drivetrain ℚ) cfgQ
      ⟨0, 0, 0⟩ ⟨0, 2, 3⟩ 90 3 50 50 1000 (-5) (fun _ => ⟨0, 0, 0⟩)
      (fun _ => 0) (fun _ => 0) 0 0 0 (by norm_num) (by norm_num)
      (by norm_num [DrivetrainType.TANK]) (by norm_num [DrivetrainType.X_DRIVE])
      (by norm_num [turnDifferences, pymod, cfgQ])
      (by norm_num [turnDifferences, pymod, cfgQ])⟩

/-! ## Claim C9: heading normalization on completion -/

/-- C9, counterexample: `set_heading` stores the passed heading verbatim, so
`set_heading(720)` leaves `current_heading = 720`, outside `[0, 360)`. -/
theorem C9_set_heading_counterexample :
    (set_heading (⟨0, 0, 0⟩ : Pose ℚ) 720).current_heading = 720
    ∧ ¬ (set_heading (⟨0, 0, 0⟩ : Pose ℚ) 720).current_heading < 360 := by
  norm_num [set_heading]

/-- C9, amended: completed `turn_to_heading` and `move_towards_heading` calls
store the normalized heading `desired_heading % 360`, which lies in
`[0, 360)`; `set_heading` however stores its argument unchanged, so its
result lies in `[0, 360)` only when the caller already normalized it. -/
theorem C9_heading_range [FloorRing K] (cfg cfgm : Drivetrain K)
    (p pm p3 : Pose K) (dh dhm h3 v dmm : K) (obs : ℕ → K)
    (obsm : ℕ → MoveObs K) (cosf sinf : K → K) (pi : K) (fuel fuelm : ℕ)
    (q qm : Pose K) (tr trm : List (MotorCmd K))
    (h1 : turn_to_heading cfg p dh obs fuel = .ok q tr)
    (h2 : move_towards_heading cosf sinf pi cfgm pm dhm v dmm obsm fuelm
      = .ok qm trm) :
    (q.current_heading = pymod dh 360
      ∧ 0 ≤ q.current_heading ∧ q.current_heading < 360)
    ∧ (qm.current_heading = pymod dhm 360
      ∧ 0 ≤ qm.current_heading ∧ qm.current_heading < 360)
    ∧ set_heading p3 h3 = { p3 with current_heading := h3 } := by
  have e1 := turn_to_heading_ok_pose cfg p dh obs fuel q tr h1
  have e2 := move_towards_heading_ok_pose cosf sinf pi cfgm pm dhm v dmm obsm
    fuelm qm trm h2
  refine ⟨⟨?_, ?_, ?_⟩, ⟨?_, ?_, ?_⟩, rfl⟩
  · rw [e1]
  · rw [e1]
    exact pymod_nonneg dh 360 (by norm_num)
  · rw [e1]
    exact pymod_lt dh 360 (by norm_num)
  · rw [e2]
  · rw [e2]
    exact pymod_nonneg dhm 360 (by norm_num)
  · rw [e2]
    exact pymod_lt dhm 360 (by norm_num)

/-- C9 witness: the amended statement at concrete completed runs over `ℚ`
(a turn to `3°` and a move towards `3°` whose loop exits immediately). -/
theorem C9_heading_range_witness :
    (turn_to_heading cfgQ ⟨0, 2, 3⟩ 3 (fun _ => 0) 0
        = RunResult.ok (⟨3, 2, 3⟩ : Pose ℚ)
            [.setVelocity .all 0, .spinForward .all, .stopMotors .all]
      ∧ move_towards_heading id id 0 cfgQ ⟨0, 0, 0⟩ 3 50 1000
          (fun i => if i = 0 then ⟨0, 0, 0⟩ else ⟨720000, 720000, 0⟩) 0
        = RunResult.ok (⟨3, 0, 0⟩ : Pose ℚ)
            [.setVelocity .all 0, .spinForward .all, .stopMotors .all])
    ∧ (((⟨3, 2, 3⟩ : Pose ℚ).current_heading = pymod 3 360
        ∧ 0 ≤ (⟨3, 2, 3⟩ : Pose ℚ).current_heading
        ∧ (⟨3, 2, 3⟩ : Pose ℚ).current_heading < 360)
      ∧ ((⟨3, 0, 0⟩ : Pose ℚ).current_heading = pymod 3 360
        ∧ 0 ≤ (⟨3, 0, 0⟩ : Pose ℚ).current_heading
        ∧ (⟨3, 0, 0⟩ : Pose ℚ).current_heading < 360)
      ∧ set_heading (⟨0, 0, 0⟩ : Pose ℚ) 720
          = { (⟨0, 0, 0⟩ : Pose ℚ) with current_heading := 720 }) := by
  have hrun1 : turn_to_heading cfgQ (⟨0, 2, 3⟩ : Pose ℚ) 3 (fun _ => 0) 0
      = RunResult.ok (⟨3, 2, 3⟩ : Pose ℚ)
          [.setVelocity .all 0, .spinForward .all, .stopMotors .all] := by
    norm_num [turn_to_heading, turnLoop, turnFinish, turnDifferences, pymod,
      cfgQ]
  have hrun2 : move_towards_heading id id 0 cfgQ (⟨0, 0, 0⟩ : Pose ℚ) 3 50
      1000 (fun i => if i = 0 then ⟨0, 0, 0⟩ else ⟨720000, 720000, 0⟩) 0
      = RunResult.ok (⟨3, 0, 0⟩ : Pose ℚ)
          [.setVelocity .all 0, .spinForward .all, .stopMotors .all] := by
    norm_num [move_towards_heading, moveLoop, moveFinish, pymod, cfgQ]
  exact ⟨⟨hrun1, hrun2⟩,
    C9_heading_range cfgQ cfgQ ⟨0, 2, 3⟩ ⟨0, 0, 0⟩ ⟨0, 0, 0⟩ 3 3 720 50 1000
      (fun _ => 0)
      (fun i => if i = 0 then ⟨0, 0, 0⟩ else ⟨720000, 720000, 0⟩)
      id id 0 0 0 ⟨3, 2, 3⟩ ⟨3, 0, 0⟩ _ _ hrun1 hrun2⟩

/-! ## Claim C4: `move_to_position` delegation -/

theorem atan2_one_zero : atan2 1 0 = Real.pi / 2 := by
  rw [atan2]
  rw [show (⟨0, 1⟩ : ℂ) = Complex.I from rfl, Complex.arg_I]

/-- C4, counterexample: from the origin towards `(x, y) = (1, 0)` the claim's
angle is `atan2(1, 0) = pi/2`, but the code multiplies the `atan2` result by
`pi / 180` (line 214), so the first delegated call is
`turn_to_heading(pi/2 * pi/180)`, not `turn_to_heading(atan2(1, 0))` —
those differ because `pi` is strictly less than `180`. -/
theorem C4_angle_counterexample :
    (move_to_position ⟨0, 0, 0⟩ 1 0 50).head?
      ≠ some (DriveCall.turn (atan2 (1 - 0) (0 - 0))) := by
  intro h
  have hhead : (move_to_position (⟨0, 0, 0⟩ : Pose ℝ) 1 0 50).head?
      = some (.turn (atan2 1 0 * Real.pi / 180)) := by
    simp [move_to_position]
  rw [hhead] at h
  simp only [Option.some.injEq, DriveCall.turn.injEq] at h
  rw [show (1 : ℝ) - 0 = 1 by norm_num, show (0 : ℝ) - 0 = 0 by norm_num,
    atan2_one_zero] at h
  have hpos : (0 : ℝ) < Real.pi * (180 - Real.pi) :=
    mul_pos Real.pi_pos (by linarith [Real.pi_lt_d2])
  nlinarith [h, hpos]

/-- C4, amended: `move_to_position` computes
`angle = atan2(x - current_x, y - current_y) * pi / 180` (the claim's `atan2`
value scaled by the stray `pi / 180` factor of line 214) and
`distance = sqrt((x - current_x)^2 + (y - current_y)^2)` (the Euclidean
distance, i.e. the modulus of the displacement as a complex number), then
delegates to `turn_to_heading(angle)` followed by
`move_towards_heading(angle, target_speed, distance)`, in that order and
with the same angle in both calls. -/
theorem C4_move_to_position_delegation (p : Pose ℝ) (x y target_speed : ℝ) :
    move_to_position p x y target_speed
      = [DriveCall.turn
            (atan2 (x - p.current_x) (y - p.current_y) * Real.pi / 180),
         DriveCall.move
            (atan2 (x - p.current_x) (y - p.current_y) * Real.pi / 180)
            target_speed
            (Real.sqrt ((x - p.current_x) ^ 2 + (y - p.current_y) ^ 2))]
    ∧ Real.sqrt ((x - p.current_x) ^ 2 + (y - p.current_y) ^ 2)
        = Complex.abs ⟨x - p.current_x, y - p.current_y⟩ := by
  refine ⟨rfl, ?_⟩
  rw [Complex.abs_apply, Complex.normSq_mk]
  congr 1
  ring

/-! ## Claim C7: the dead-reckoning pose update -/

theorem cos_deg_pymod (x : ℝ) :
    Real.cos (pymod x 360 * Real.pi / 180) = Real.cos (x * Real.pi / 180) := by
  rw [pymod]
  rw [show (x - 360 * ⌊x / 360⌋) * Real.pi / 180
      = x * Real.pi / 180 + (-⌊x / 360⌋ : ℤ) * (2 * Real.pi) by
    push_cast
    ring]
  exact Real.cos_add_int_mul_two_pi _ _

theorem sin_deg_pymod (x : ℝ) :
    Real.sin (pymod x 360 * Real.pi / 180) = Real.sin (x * Real.pi / 180) := by
  rw [pymod]
  rw [show (x - 360 * ⌊x / 360⌋) * Real.pi / 180
      = x * Real.pi / 180 + (-⌊x / 360⌋ : ℤ) * (2 * Real.pi) by
    push_cast
    ring]
  exact Real.sin_add_int_mul_two_pi _ _

/-- `move_towards_heading` with the real trigonometric functions, as executed
by the Python code (`math.cos`, `math.sin`, `math.pi`). -/
noncomputable def move_towards_headingR (cfg : Drivetrain ℝ) (p : Pose ℝ)
    (dh v dmm : ℝ) (obs : ℕ → MoveObs ℝ) (fuel : ℕ) : RunResult ℝ :=
  move_towards_heading Real.cos Real.sin Real.pi cfg p dh v dmm obs fuel

/-- The concrete configuration over `ℝ` used by the real-valued checks. -/
noncomputable def cfgR : Drivetrain ℝ :=
  ⟨5, 1 / 4, 1 / 10, 1, 360, 1 / 5, DrivetrainType.TANK⟩

/-- An observation stream whose second averaged encoder reading already
exceeds any reasonable target distance, so the movement loop exits on its
first condition check. -/
noncomputable def obsSkipR : ℕ → MoveObs ℝ := fun i =>
  if i = 0 then ⟨0, 0, 0⟩ else ⟨720000, 720000, 0⟩

/-- C7, counterexample: starting at the origin,
`move_towards_heading(0, 50, 1000)` leaves the pose at `(x, y) = (1000, 0)` —
the code's `x += cos(...)`, `y += sin(...)` update puts heading `0` along
`+x` — not at `(0, 1000)` as the claim's heading-0 = `+y` convention
states (`1000 ≠ 0`). -/
theorem C7_heading_zero_moves_plus_x :
    move_towards_headingR cfgR ⟨0, 0, 0⟩ 0 50 1000 obsSkipR 0
      = RunResult.ok (⟨0, 1000, 0⟩ : Pose ℝ)
          [.setVelocity .all 0, .spinForward .all, .stopMotors .all]
    ∧ (1000 : ℝ) ≠ 0 := by
  constructor
  · rw [move_towards_headingR, move_towards_heading]
    rw [if_neg (by norm_num), if_neg (by norm_num)]
    norm_num [pymod, moveLoop, moveFinish, obsSkipR, cfgR]
  · norm_num

/-- C7, amended: a completed `move_towards_heading(h, v, d)` applies
`x += cos(h * pi / 180) * d`, `y += sin(h * pi / 180) * d` (heading `0` is
`+x`, heading `90` is `+y`), and a subsequent completed move of the same
distance along heading `h + 180` restores `(x, y)` exactly. -/
theorem C7_pose_update_reversal (cfg cfg' : Drivetrain ℝ) (p p1 p2 : Pose ℝ)
    (h v v' d : ℝ) (obs obs' : ℕ → MoveObs ℝ) (fuel fuel' : ℕ)
    (tr tr' : List (MotorCmd ℝ))
    (h1 : move_towards_headingR cfg p h v d obs fuel = .ok p1 tr)
    (h2 : move_towards_headingR cfg' p1 (h + 180) v' d obs' fuel'
      = .ok p2 tr') :
    (p1.current_x = p.current_x + Real.cos (h * Real.pi / 180) * d
      ∧ p1.current_y = p.current_y + Real.sin (h * Real.pi / 180) * d)
    ∧ p2.current_x = p.current_x ∧ p2.current_y = p.current_y := by
  have e1 := move_towards_heading_ok_pose Real.cos Real.sin Real.pi cfg p h v
    d obs fuel p1 tr h1
  have e2 := move_towards_heading_ok_pose Real.cos Real.sin Real.pi cfg' p1
    (h + 180) v' d obs' fuel' p2 tr' h2
  have hcos2 : Real.cos (pymod (h + 180) 360 * Real.pi / 180)
      = -Real.cos (h * Real.pi / 180) := by
    rw [cos_deg_pymod,
      show (h + 180) * Real.pi / 180 = h * Real.pi / 180 + Real.pi by ring,
      Real.cos_add_pi]
  have hsin2 : Real.sin (pymod (h + 180) 360 * Real.pi / 180)
      = -Real.sin (h * Real.pi / 180) := by
    rw [sin_deg_pymod,
      show (h + 180) * Real.pi / 180 = h * Real.pi / 180 + Real.pi by ring,
      Real.sin_add_pi]
  have hx1 : p1.current_x
      = p.current_x + Real.cos (h * Real.pi / 180) * d := by
    rw [e1]
    simp [cos_deg_pymod]
  have hy1 : p1.current_y
      = p.current_y + Real.sin (h * Real.pi / 180) * d := by
    rw [e1]
    simp [sin_deg_pymod]
  refine ⟨⟨hx1, hy1⟩, ?_, ?_⟩
  · rw [e2]
    show p1.current_x
        + Real.cos (pymod (h + 180) 360 * Real.pi / 180) * d = p.current_x
    rw [hcos2, hx1]
    ring
  · rw [e2]
    show p1.current_y
        + Real.sin (pymod (h + 180) 360 * Real.pi / 180) * d = p.current_y
    rw [hsin2, hy1]
    ring

/-- C7 witness: the reversal theorem at a concrete pair of completed runs:
`move(0, 50, 1000)` from the origin reaches `(1000, 0)`, and
`move(0 + 180, 50, 1000)` returns to `(0, 0)`. -/
theorem C7_pose_update_reversal_witness :
    (move_towards_headingR cfgR ⟨0, 0, 0⟩ 0 50 1000 obsSkipR 0
        = RunResult.ok (⟨0, 1000, 0⟩ : Pose ℝ)
            [.setVelocity .all 0, .spinForward .all, .stopMotors .all]
      ∧ move_towards_headingR cfgR ⟨0, 1000, 0⟩ (0 + 180) 50 1000 obsSkipR 0
        = RunResult.ok (⟨180, 0, 0⟩ : Pose ℝ)
            [.setVelocity .all 0, .spinForward .all, .stopMotors .all])
    ∧ (((⟨0, 1000, 0⟩ : Pose ℝ).current_x
          = (⟨0, 0, 0⟩ : Pose ℝ).current_x
            + Real.cos (0 * Real.pi / 180) * 1000
        ∧ (⟨0, 1000, 0⟩ : Pose ℝ).current_y
          = (⟨0, 0, 0⟩ : Pose ℝ).current_y
            + Real.sin (0 * Real.pi / 180) * 1000)
      ∧ (⟨180, 0, 0⟩ : Pose ℝ).current_x = (⟨0, 0, 0⟩ : Pose ℝ).current_x
      ∧ (⟨180, 0, 0⟩ : Pose ℝ).current_y = (⟨0, 0, 0⟩ : Pose ℝ).current_y) := by
  have hrun1 : move_towards_headingR cfgR (⟨0, 0, 0⟩ : Pose ℝ) 0 50 1000
      obsSkipR 0
      = RunResult.ok (⟨0, 1000, 0⟩ : Pose ℝ)
          [.setVelocity .all 0, .spinForward .all, .stopMotors .all] := by
    rw [move_towards_headingR, move_towards_heading]
    rw [if_neg (by norm_num), if_neg (by norm_num)]
    norm_num [pymod, moveLoop, moveFinish, obsSkipR, cfgR]
  have hrun2 : move_towards_headingR cfgR (⟨0, 1000, 0⟩ : Pose ℝ) (0 + 180)
      50 1000 obsSkipR 0
      = RunResult.ok (⟨180, 0, 0⟩ : Pose ℝ)
          [.setVelocity .all 0, .spinForward .all, .stopMotors .all] := by
    have hcos : Real.cos ((180 : ℝ) * Real.pi / 180) = -1 := by
      rw [show (180 : ℝ) * Real.pi / 180 = Real.pi by ring, Real.cos_pi]
    have hsin : Real.sin ((180 : ℝ) * Real.pi / 180) = 0 := by
      rw [show (180 : ℝ) * Real.pi / 180 = Real.pi by ring, Real.sin_pi]
    rw [move_towards_headingR, move_towards_heading]
    rw [if_neg (by norm_num), if_neg (by norm_num)]
    norm_num [pymod, moveLoop, moveFinish, obsSkipR, cfgR, hcos, hsin]
  exact ⟨⟨hrun1, hrun2⟩,
    C7_pose_update_reversal cfgR cfgR ⟨0, 0, 0⟩ ⟨0, 1000, 0⟩ ⟨180, 0, 0⟩ 0 50
      50 1000 obsSkipR obsSkipR 0 0 _ _ hrun1 hrun2⟩

end VRC
